import Mathlib

/-!
Shallow embedding of the purchase/checkout core of the hotspot-sarees
point-of-sale application: the `/api/billing` POST route (invoice-number
generation, request validation via the zod `createPurchaseSchema`, and the
stock-decrement + purchase-creation transaction), together with the parts of
the database state it reads and writes (the `stocks`, `purchases`,
`purchase_items` and `payments` tables from the Prisma migrations).

Conventions of the embedding:
- JS `number` amounts are modelled as `Rat` (the route only compares, adds
  and subtracts them; no float-rounding behaviour is load-bearing for the
  properties below).
- Database timestamps are abstracted to the local calendar date on which a
  row was created (`LocalDate`): a timestamp lies in
  `[startOfDay(now), startOfDay(now) + 1 day)` exactly when its local
  calendar date equals today's, which is the only way the route inspects
  `createdAt`.
- The Prisma interactive transaction (`prisma.$transaction`) is modelled as
  a pure function from the database state that either returns the updated
  state or an error message; on error the engine rolls back, so the caller
  keeps the original state.
- A thrown JS `Error` is modelled by the error message string; the route's
  `catch` block only ever inspects the message (substring tests for
  "Transaction"/"transaction").
-/

namespace Billing

/-! ### Decimal rendering and string helpers

`natToDec` models the JavaScript template-literal / `String(...)` rendering
of a non-negative integer as its decimal digits. `padLeft` models
`String.prototype.padStart(len, c)`: it pads on the left up to `len` and
leaves longer strings unchanged. `strIncludes` models
`String.prototype.includes` (substring test). -/

def decDigitsAux : Nat → Nat → List Char
  | _, 0 => []
  | 0, _ + 1 => []
  | fuel + 1, n + 1 =>
      decDigitsAux fuel ((n + 1) / 10) ++ [Nat.digitChar ((n + 1) % 10)]

def natToDec (n : Nat) : String :=
  if n = 0 then "0" else String.mk (decDigitsAux n n)

def padLeft (s : String) (len : Nat) (c : Char) : String :=
  String.mk (List.replicate (len - s.length) c ++ s.toList)

def charsStartWith : List Char → List Char → Bool
  | [], _ => true
  | _ :: _, [] => false
  | a :: as, b :: bs => a == b && charsStartWith as bs

def charsContain (sub : List Char) : List Char → Bool
  | [] => charsStartWith sub []
  | c :: cs => charsStartWith sub (c :: cs) || charsContain sub cs

def strIncludes (s sub : String) : Bool :=
  charsContain sub.toList s.toList

/-! ### Dates and database state -/

/-- Local calendar date, as produced by `new Date()` component reads
(`getFullYear`, `getMonth() + 1`, `getDate`) in the route. -/
structure LocalDate where
  year : Nat
  month : Nat
  day : Nat
deriving DecidableEq, BEq

/-- Row of the `stocks` table, restricted to the columns the billing route
reads or writes (`id`, `itemName` for error messages, `quantity`). -/
structure StockRow where
  id : String
  itemName : String
  quantity : Int
deriving DecidableEq, BEq

/-- Row of `purchase_items`, as created by the nested
`items: { create: ... }` of `tx.purchase.create`. -/
structure PurchaseItemRow where
  stockId : String
  quantity : Int
  unitPrice : Rat
  totalPrice : Rat
deriving DecidableEq, BEq

/-- Row of the `purchases` table, restricted to the columns the route
writes, plus the local calendar date of `createdAt` (see module comment). -/
structure PurchaseRow where
  invoiceNumber : String
  customerName : String
  customerPhone : Option String
  customerEmail : Option String
  notes : Option String
  subtotal : Rat
  discountType : Option String
  discountValue : Option Rat
  discountAmount : Rat
  taxAmount : Rat
  totalAmount : Rat
  paymentMethod : String
  items : List PurchaseItemRow
  createdDate : LocalDate
deriving DecidableEq, BEq

/-- Row of the `payments` table (added by the
`20250920..._add_split_payments` migration). The billing route never
touches this table, but it is part of the state so that claims about
Payment rows can be stated. -/
structure PaymentRow where
  purchaseInvoice : String
  paymentMethod : String
  amount : Rat
deriving DecidableEq, BEq

/-- Database state visible to the billing route. -/
structure DB where
  stocks : List StockRow
  purchases : List PurchaseRow
  payments : List PaymentRow
deriving DecidableEq, BEq

/-! ### Invoice number generation

Model of `generateInvoiceNumber` in `src/app/api/billing/route.ts`: it
formats today's date components and counts the purchases whose `createdAt`
lies in `[startOfDay, endOfDay)` of the server-local day, i.e. whose local
calendar date is today's. -/

/-- Count of purchases created on the given local calendar day: model of
`prisma.purchase.count` with `createdAt: { gte: startOfDay, lt: endOfDay }`. -/
def todayCount (db : DB) (today : LocalDate) : Nat :=
  (db.purchases.filter (fun p => p.createdDate == today)).length

/-- Model of `generateInvoiceNumber`: builds
`INV-<year><month padded to 2><day padded to 2>-<todayCount+1 padded to 4>`.
The year is rendered unpadded (`${year}`), the month is `getMonth() + 1`. -/
def generateInvoiceNumber (today : LocalDate) (db : DB) : String :=
  "INV-" ++ natToDec today.year
        ++ padLeft (natToDec today.month) 2 '0'
        ++ padLeft (natToDec today.day) 2 '0'
        ++ "-"
        ++ padLeft (natToDec (todayCount db today + 1)) 4 '0'

/-! ### The request body and the zod validation schema

`RawPurchaseRequest` is the JSON body as the POS client sends it
(`CreatePurchaseData` in `lib/billing-api.ts`): `Option` marks fields that
may be absent. `isSplitPayment` and `splitPayments` are sent by the client
but are not part of `createPurchaseSchema`, so `z.object(...).parse` strips
them silently. Wrong-typed JSON values (which zod also rejects) are outside
the model; absence covers the claims below. -/

/-- One entry of the client's `splitPayments` array. -/
structure SplitPaymentEntry where
  paymentMethod : String
  amount : Rat
deriving DecidableEq, BEq

/-- One entry of the request's `items` array, before validation. The
`quantity` arrives as a JS number; `z.number().int()` later requires it to
be integral (denominator 1 in the `Rat` model). -/
structure RawPurchaseItem where
  stockId : String
  quantity : Rat
  unitPrice : Rat
  totalPrice : Rat
deriving DecidableEq, BEq

/-- The JSON request body of `POST /api/billing`. -/
structure RawPurchaseRequest where
  customerName : Option String
  customerPhone : Option String
  customerEmail : Option String
  notes : Option String
  subtotal : Option Rat
  discountType : Option String
  discountValue : Option Rat
  discountAmount : Option Rat
  taxAmount : Option Rat
  totalAmount : Option Rat
  paymentMethod : Option String
  isSplitPayment : Option Bool
  splitPayments : Option (List SplitPaymentEntry)
  items : List RawPurchaseItem
deriving DecidableEq, BEq

/-- A line item after validation: `quantity` is the integral value of the
raw number. -/
structure ValidItem where
  stockId : String
  quantity : Int
  unitPrice : Rat
  totalPrice : Rat
deriving DecidableEq, BEq

/-- The output of `createPurchaseSchema.parse`: every field checked, with
zod's `.default(0)` applied to `discountAmount` and `taxAmount`. -/
structure ValidatedData where
  customerName : String
  customerPhone : Option String
  customerEmail : Option String
  notes : Option String
  subtotal : Rat
  discountType : Option String
  discountValue : Option Rat
  discountAmount : Rat
  taxAmount : Rat
  totalAmount : Rat
  paymentMethod : String
  items : List ValidItem
deriving DecidableEq, BEq

/-- Abstraction of zod's `z.string().email()` pattern: every address the
zod regex accepts contains an `@`. No claim below depends on the precise
email grammar; all concrete inputs used in theorems omit the field. -/
def emailShaped (s : String) : Bool :=
  strIncludes s "@"

/-- Issues raised by `customerName: z.string().min(1)`. -/
def customerNameIssues (v : Option String) : List String :=
  match v with
  | none => ["Required"]
  | some s => if s.length < 1 then ["Customer name is required"] else []

/-- Issues raised by
`customerEmail: z.string().email().optional().or(z.literal(""))`. -/
def customerEmailIssues (v : Option String) : List String :=
  match v with
  | none => []
  | some s => if s = "" then [] else if emailShaped s then [] else ["Invalid email"]

/-- Issues raised by a required `z.number().positive(msg)` field. -/
def requiredPositiveIssues (v : Option Rat) (msg : String) : List String :=
  match v with
  | none => ["Required"]
  | some x => if x ≤ 0 then [msg] else []

/-- Issues raised by an optional (or defaulted) `z.number().min(0)` field. -/
def optionalNonnegIssues (v : Option Rat) : List String :=
  match v with
  | none => []
  | some x => if x < 0 then ["Number must be greater than or equal to 0"] else []

/-- Issues raised by `discountType: z.enum(["percentage", "price"]).optional()`. -/
def discountTypeIssues (v : Option String) : List String :=
  match v with
  | none => []
  | some s => if s = "percentage" ∨ s = "price" then [] else ["Invalid enum value"]

/-- Issues raised by `paymentMethod: z.enum(["cash", "card", "upi"])`. -/
def paymentMethodIssues (v : Option String) : List String :=
  match v with
  | none => ["Required"]
  | some s => if s = "cash" ∨ s = "card" ∨ s = "upi" then [] else ["Invalid enum value"]

/-- Issues raised by one entry of the `items` array schema. -/
def itemIssues (it : RawPurchaseItem) : List String :=
  (if it.stockId.length < 1 then ["Stock ID is required"] else [])
  ++ (if it.quantity.den = 1 then [] else ["Expected integer, received float"])
  ++ (if it.quantity ≤ 0 then ["Quantity must be a positive integer"] else [])
  ++ (if it.unitPrice ≤ 0 then ["Unit price must be positive"] else [])
  ++ (if it.totalPrice ≤ 0 then ["Total price must be positive"] else [])

/-- Issues raised by `items: z.array(...).min(1)`. -/
def itemsIssues (items : List RawPurchaseItem) : List String :=
  match items with
  | [] => ["At least one item is required"]
  | _ :: _ => (items.map itemIssues).flatten

/-- All issues `createPurchaseSchema.parse` would collect for the body, in
field order. zod fails the parse exactly when this list is non-empty. -/
def schemaIssues (req : RawPurchaseRequest) : List String :=
  customerNameIssues req.customerName
  ++ customerEmailIssues req.customerEmail
  ++ requiredPositiveIssues req.subtotal "Subtotal must be positive"
  ++ discountTypeIssues req.discountType
  ++ optionalNonnegIssues req.discountValue
  ++ optionalNonnegIssues req.discountAmount
  ++ optionalNonnegIssues req.taxAmount
  ++ requiredPositiveIssues req.totalAmount "Total amount must be positive"
  ++ paymentMethodIssues req.paymentMethod
  ++ itemsIssues req.items

/-- The validated value extracted from a body with no issues. The `getD`
defaults are reachable only for `discountAmount` and `taxAmount`, where
they implement zod's `.default(0)`; for the other fields an absent value
already produced an issue. -/
def extractValidated (req : RawPurchaseRequest) : ValidatedData :=
  { customerName := req.customerName.getD ""
    customerPhone := req.customerPhone
    customerEmail := req.customerEmail
    notes := req.notes
    subtotal := req.subtotal.getD 0
    discountType := req.discountType
    discountValue := req.discountValue
    discountAmount := req.discountAmount.getD 0
    taxAmount := req.taxAmount.getD 0
    totalAmount := req.totalAmount.getD 0
    paymentMethod := req.paymentMethod.getD ""
    items := req.items.map (fun it =>
      { stockId := it.stockId
        quantity := it.quantity.num
        unitPrice := it.unitPrice
        totalPrice := it.totalPrice }) }

/-- Model of `createPurchaseSchema.parse(body)`: succeeds with the
validated data when no field check fails, otherwise raises a `ZodError`
carrying the issues. -/
def createPurchaseSchema (req : RawPurchaseRequest) :
    Except (List String) ValidatedData :=
  if schemaIssues req = [] then .ok (extractValidated req)
  else .error (schemaIssues req)

/-! ### The checkout transaction

Model of the `prisma.$transaction(async (tx) => ...)` body of the POST
handler: batch-fetch the referenced stock rows, validate availability line
by line (throwing at the first failure), batch-apply the collected
quantity updates, then create the purchase row with its nested items.
The database's unique index `purchases_invoiceNumber_key` makes the create
fail when the invoice number already exists; Prisma surfaces that as an
`Error` whose message reports the unique-constraint violation (and contains
no occurrence of the word "transaction"). -/

/-- A pending stock update collected by the validation loop
(`stockUpdates.push(...)` in the source). -/
structure StockUpdate where
  id : String
  newQuantity : Int
deriving DecidableEq, BEq

/-- Model of `tx.stock.findMany({ where: { id: { in: stockIds } } })`. -/
def fetchedStocks (stocks : List StockRow) (items : List ValidItem) : List StockRow :=
  stocks.filter (fun s => (items.map (fun it => it.stockId)).contains s.id)

/-- Model of `stockMap.get(id)` for the map built from the fetched rows
(row ids are unique in the table, so first match equals the JS map entry). -/
def lookupStock (stocks : List StockRow) (id : String) : Option StockRow :=
  stocks.find? (fun s => s.id == id)

/-- The validation loop `for (const item of validatedData.items)`: resolves
each line against the fetched rows, throws `Stock item ... not found` or
`Insufficient stock ...` at the first failing line, and otherwise collects
the pending updates in order. -/
def checkItems (stocks : List StockRow) : List ValidItem → Except String (List StockUpdate)
  | [] => .ok []
  | item :: rest =>
    match lookupStock stocks item.stockId with
    | none => .error ("Stock item with ID " ++ item.stockId ++ " not found")
    | some stock =>
      if stock.quantity < item.quantity then
        .error ("Insufficient stock for " ++ stock.itemName ++ ". Available: "
          ++ toString stock.quantity ++ ", Required: " ++ toString item.quantity)
      else
        match checkItems stocks rest with
        | .error e => .error e
        | .ok updates =>
            .ok ({ id := item.stockId, newQuantity := stock.quantity - item.quantity } :: updates)

/-- Model of one `tx.stock.update({ where: { id }, data: { quantity } })`. -/
def applyUpdate (stocks : List StockRow) (u : StockUpdate) : List StockRow :=
  stocks.map (fun s => if s.id == u.id then { s with quantity := u.newQuantity } else s)

/-- Model of `Promise.all(stockUpdates.map(...))`, applying the collected
updates. Each update overwrites one row's quantity with an absolute value;
the claims below are insensitive to the order in which the promises settle,
so the updates are applied in list order. -/
def applyUpdates (stocks : List StockRow) (updates : List StockUpdate) : List StockRow :=
  updates.foldl applyUpdate stocks

/-- The purchase row built by `tx.purchase.create` from the validated data
and the pre-generated invoice number. -/
def mkPurchaseRow (now : LocalDate) (invoiceNumber : String) (v : ValidatedData) : PurchaseRow :=
  { invoiceNumber := invoiceNumber
    customerName := v.customerName
    customerPhone := v.customerPhone
    customerEmail := v.customerEmail
    notes := v.notes
    subtotal := v.subtotal
    discountType := v.discountType
    discountValue := v.discountValue
    discountAmount := v.discountAmount
    taxAmount := v.taxAmount
    totalAmount := v.totalAmount
    paymentMethod := v.paymentMethod
    items := v.items.map (fun it =>
      { stockId := it.stockId
        quantity := it.quantity
        unitPrice := it.unitPrice
        totalPrice := it.totalPrice })
    createdDate := now }

/-- The transaction body: on any `.error` the engine rolls back and the
caller keeps its original state; on `.ok` the returned state is committed. -/
def txBody (now : LocalDate) (db : DB) (v : ValidatedData) (invoiceNumber : String) :
    Except String DB :=
  let stocks := fetchedStocks db.stocks v.items
  match checkItems stocks v.items with
  | .error e => .error e
  | .ok updates =>
    let stocks2 := applyUpdates db.stocks updates
    if db.purchases.any (fun p => p.invoiceNumber == invoiceNumber) then
      .error "Unique constraint failed on the fields: (invoiceNumber)"
    else
      .ok { stocks := stocks2
            purchases := db.purchases ++ [mkPurchaseRow now invoiceNumber v]
            payments := db.payments }

/-! ### The POST handler -/

/-- The HTTP response of the route, reduced to the fields the claims
mention: the `success` flag, the status code, and the `error` string. -/
structure ApiResponse where
  success : Bool
  status : Nat
  error : Option String
deriving DecidableEq, BEq

/-- Model of `POST /api/billing`: parse the body with
`createPurchaseSchema` (a `ZodError` yields status 400 and the message
`Validation failed`), generate the invoice number outside the transaction,
run the transaction, and map a thrown `Error` to 503 when its message
contains "Transaction" or "transaction" and to 400 otherwise (the final
500 branch of the source handles non-`Error` throwables and is unreachable
in this model). Returns the response together with the database state after
the call. -/
def POST (now : LocalDate) (db : DB) (req : RawPurchaseRequest) : ApiResponse × DB :=
  match createPurchaseSchema req with
  | .error _ =>
      ({ success := false, status := 400, error := some "Validation failed" }, db)
  | .ok v =>
    let invoiceNumber := generateInvoiceNumber now db
    match txBody now db v invoiceNumber with
    | .error msg =>
        if strIncludes msg "Transaction" || strIncludes msg "transaction" then
          ({ success := false, status := 503,
             error := some "Database transaction failed. Please try again." }, db)
        else
          ({ success := false, status := 400, error := some msg }, db)
    | .ok db2 =>
        ({ success := true, status := 201, error := none }, db2)

/-! ### Concrete fixtures used by witnesses and counterexamples -/

/-- The calendar day used by the concrete scenarios. -/
def day0 : LocalDate := { year := 2025, month := 10, day := 11 }

/-- A well-formed request body that every concrete scenario below varies:
one line of two units of stock item `stockA` at 500 each, paid in cash. -/
def baseReq : RawPurchaseRequest :=
  { customerName := some "Alice"
    customerPhone := none
    customerEmail := none
    notes := none
    subtotal := some 1000
    discountType := none
    discountValue := none
    discountAmount := some 0
    taxAmount := some 0
    totalAmount := some 1000
    paymentMethod := some "cash"
    isSplitPayment := none
    splitPayments := none
    items := [{ stockId := "stockA", quantity := 2, unitPrice := 500, totalPrice := 1000 }] }

/-- A database holding a single stock row `stockA` with four units on hand
and no purchases or payments. -/
def dbA : DB :=
  { stocks := [{ id := "stockA", itemName := "Silk Saree", quantity := 4 }]
    purchases := []
    payments := [] }

/-- A request whose cart contains the same stock item twice, two units per
line (the duplicate-cart-lines scenario of the spec). -/
def reqDup : RawPurchaseRequest :=
  { baseReq with
      items := [{ stockId := "stockA", quantity := 2, unitPrice := 250, totalPrice := 500 },
                { stockId := "stockA", quantity := 2, unitPrice := 250, totalPrice := 500 }] }

/-- A purchase created the previous day whose invoice number happens to be
the one the allocator will produce for `day0` on a database with no
purchases created on `day0` itself. -/
def pYesterday : PurchaseRow :=
  { invoiceNumber := "INV-20251011-0001"
    customerName := "Bob"
    customerPhone := none
    customerEmail := none
    notes := none
    subtotal := 100
    discountType := none
    discountValue := none
    discountAmount := 0
    taxAmount := 0
    totalAmount := 100
    paymentMethod := "cash"
    items := []
    createdDate := { year := 2025, month := 10, day := 10 } }

/-- A database in which the invoice number generated for `day0` collides
with an existing row (created on another day, so it is not counted). -/
def dbColl : DB := { dbA with purchases := [pYesterday] }

/-- A well-formed single-line request for one unit of `stockA`. -/
def reqOne : RawPurchaseRequest :=
  { baseReq with
      subtotal := some 250
      totalAmount := some 250
      items := [{ stockId := "stockA", quantity := 1, unitPrice := 250, totalPrice := 250 }] }

/-- A split-payment request exactly as the POS client builds it: the split
amounts 400 + 600 sum exactly to the total 1000. -/
def reqSplit : RawPurchaseRequest :=
  { baseReq with
      paymentMethod := some "split"
      isSplitPayment := some true
      splitPayments := some [{ paymentMethod := "cash", amount := 400 },
                             { paymentMethod := "card", amount := 600 }] }

/-- A request whose amounts are mutually inconsistent: the item totals sum
to 5, the claimed subtotal is 100, and the claimed total is 999, with zero
discount and tax. Every field is individually positive, so the schema
accepts it. -/
def reqBadTotals : RawPurchaseRequest :=
  { baseReq with
      subtotal := some 100
      totalAmount := some 999
      items := [{ stockId := "stockA", quantity := 1, unitPrice := 5, totalPrice := 5 }] }

/-- A request referencing a stock id that does not exist in `dbA`. -/
def reqGhost : RawPurchaseRequest :=
  { baseReq with
      subtotal := some 100
      totalAmount := some 100
      items := [{ stockId := "ghost", quantity := 1, unitPrice := 100, totalPrice := 100 }] }

/-- A request identical to `reqOne` except that the customer name is the
empty string. -/
def reqBlank : RawPurchaseRequest := { reqOne with customerName := some "" }

/-- A fully discounted sale: subtotal and total are both zero, all other
fields well-formed. -/
def reqZero : RawPurchaseRequest :=
  { baseReq with
      subtotal := some 0
      totalAmount := some 0 }

/-- A request demanding more units than `dbA` has on hand. -/
def reqInsuf : RawPurchaseRequest :=
  { baseReq with
      subtotal := some 900
      totalAmount := some 900
      items := [{ stockId := "stockA", quantity := 9, unitPrice := 100, totalPrice := 900 }] }

/-! ### Lemmas about decimal rendering and padding -/

theorem length_mk (l : List Char) : (String.mk l).length = l.length := rfl

theorem toList_length (s : String) : s.toList.length = s.length := rfl

theorem padLeft_length (s : String) (len : Nat) (c : Char) :
    (padLeft s len c).length = max len s.length := by
  show (List.replicate (len - s.length) c ++ s.toList).length = max len s.length
  rw [List.length_append, List.length_replicate, toList_length]
  rcases Nat.le_total s.length len with h | h
  · rw [Nat.max_eq_left h]
    omega
  · rw [Nat.max_eq_right h]
    omega

theorem decDigitsAux_length_le (fuel : Nat) :
    ∀ n k : Nat, n ≤ fuel → n < 10 ^ k → (decDigitsAux fuel n).length ≤ k := by
  induction fuel with
  | zero =>
    intro n k hf _
    interval_cases n
    simp [decDigitsAux]
  | succ fuel ih =>
    intro n k hf hn
    match n with
    | 0 => simp [decDigitsAux]
    | m + 1 =>
      have hk : k ≠ 0 := by
        intro hk0
        rw [hk0] at hn
        omega
      obtain ⟨k2, rfl⟩ := Nat.exists_eq_succ_of_ne_zero hk
      have hdiv : (m + 1) / 10 < 10 ^ k2 := by
        apply Nat.div_lt_of_lt_mul
        rw [Nat.mul_comm]
        rw [Nat.pow_succ] at hn
        omega
      have hfle : (m + 1) / 10 ≤ fuel := by
        have := Nat.div_lt_self (Nat.succ_pos m) (by norm_num : 1 < 10)
        omega
      have hrec := ih ((m + 1) / 10) k2 hfle hdiv
      simp only [decDigitsAux, List.length_append, List.length_cons, List.length_nil]
      omega

theorem decDigitsAux_length_ge (fuel : Nat) :
    ∀ n k : Nat, n ≤ fuel → 10 ^ k ≤ n → k + 1 ≤ (decDigitsAux fuel n).length := by
  induction fuel with
  | zero =>
    intro n k hf hn
    have : 0 < 10 ^ k := Nat.pos_pow_of_pos k (by norm_num)
    omega
  | succ fuel ih =>
    intro n k hf hn
    match n with
    | 0 =>
      have : 0 < 10 ^ k := Nat.pos_pow_of_pos k (by norm_num)
      omega
    | m + 1 =>
      simp only [decDigitsAux, List.length_append, List.length_cons, List.length_nil]
      match k with
      | 0 => omega
      | k2 + 1 =>
        have hdiv : 10 ^ k2 ≤ (m + 1) / 10 := by
          rw [Nat.le_div_iff_mul_le (by norm_num : 0 < 10)]
          rw [Nat.pow_succ] at hn
          omega
        have hfle : (m + 1) / 10 ≤ fuel := by
          have := Nat.div_lt_self (Nat.succ_pos m) (by norm_num : 1 < 10)
          omega
        have hrec := ih ((m + 1) / 10) k2 hfle hdiv
        omega

theorem natToDec_length_le (n k : Nat) (hk : 0 < k) (h : n < 10 ^ k) :
    (natToDec n).length ≤ k := by
  unfold natToDec
  split
  · simpa using hk
  · rw [length_mk]
    exact decDigitsAux_length_le n n k (Nat.le_refl n) h

theorem natToDec_length_eq (n k : Nat) (h1 : 10 ^ k ≤ n) (h2 : n < 10 ^ (k + 1)) :
    (natToDec n).length = k + 1 := by
  have hpos : 0 < n := by
    have : 0 < 10 ^ k := Nat.pos_pow_of_pos k (by norm_num)
    omega
  unfold natToDec
  rw [if_neg (by omega : ¬n = 0), length_mk]
  have hle := decDigitsAux_length_le n n (k + 1) (Nat.le_refl n) h2
  have hge := decDigitsAux_length_ge n n k (Nat.le_refl n) h1
  omega

/-! ### Lemmas about the validation schema and the handler branches -/

/-- A request whose field checks raise at least one issue is answered with
status 400 and the message `Validation failed`, and the state is untouched. -/
theorem POST_of_issues (now : LocalDate) (db : DB) (req : RawPurchaseRequest)
    (h : schemaIssues req ≠ []) :
    POST now db req =
      ({ success := false, status := 400, error := some "Validation failed" }, db) := by
  unfold POST createPurchaseSchema
  rw [if_neg h]

/-- When parsing succeeds and the transaction body throws, the handler maps
the message through the `catch` block and the state is untouched. -/
theorem POST_of_txError (now : LocalDate) (db : DB) (req : RawPurchaseRequest)
    (v : ValidatedData) (e : String)
    (hparse : createPurchaseSchema req = .ok v)
    (he : txBody now db v (generateInvoiceNumber now db) = .error e) :
    POST now db req =
      (if strIncludes e "Transaction" || strIncludes e "transaction" then
        ({ success := false, status := 503,
           error := some "Database transaction failed. Please try again." }, db)
      else
        ({ success := false, status := 400, error := some e }, db)) := by
  unfold POST
  rw [hparse]
  dsimp only
  rw [he]

/-- When parsing succeeds and the transaction body commits, the handler
returns 201 with the committed state. -/
theorem POST_of_txOk (now : LocalDate) (db : DB) (req : RawPurchaseRequest)
    (v : ValidatedData) (db2 : DB)
    (hparse : createPurchaseSchema req = .ok v)
    (hok : txBody now db v (generateInvoiceNumber now db) = .ok db2) :
    POST now db req = ({ success := true, status := 201, error := none }, db2) := by
  unfold POST
  rw [hparse]
  dsimp only
  rw [hok]

/-- A transaction-body error leaves the state of the call unchanged,
whatever the message is. -/
theorem POST_db_unchanged_of_txError (now : LocalDate) (db : DB)
    (req : RawPurchaseRequest) (v : ValidatedData) (e : String)
    (hparse : createPurchaseSchema req = .ok v)
    (he : txBody now db v (generateInvoiceNumber now db) = .error e) :
    (POST now db req).2 = db ∧ (POST now db req).1.success = false := by
  rw [POST_of_txError now db req v e hparse he]
  split <;> exact ⟨rfl, rfl⟩

/-- A failed check of any single line makes the validation loop throw. -/
theorem checkItems_error_of_exists (stocks : List StockRow) (items : List ValidItem)
    (h : ∃ it ∈ items, lookupStock stocks it.stockId = none ∨
      ∃ s, lookupStock stocks it.stockId = some s ∧ s.quantity < it.quantity) :
    ∃ e, checkItems stocks items = .error e := by
  induction items with
  | nil =>
    obtain ⟨it, hmem, _⟩ := h
    cases hmem
  | cons a rest ih =>
    obtain ⟨it, hmem, hbad⟩ := h
    cases hfind : lookupStock stocks a.stockId with
    | none =>
      refine ⟨"Stock item with ID " ++ a.stockId ++ " not found", ?_⟩
      simp [checkItems, hfind]
    | some s =>
      by_cases hq : s.quantity < a.quantity
      · refine ⟨"Insufficient stock for " ++ s.itemName ++ ". Available: "
          ++ toString s.quantity ++ ", Required: " ++ toString a.quantity, ?_⟩
        simp [checkItems, hfind, if_pos hq]
      · rcases List.mem_cons.mp hmem with rfl | hmem2
        · rcases hbad with hnone | ⟨s2, hs2, hlt⟩
          · rw [hfind] at hnone
            cases hnone
          · rw [hfind] at hs2
            cases hs2
            exact absurd hlt hq
        · obtain ⟨e, he⟩ := ih ⟨it, hmem2, hbad⟩
          refine ⟨e, ?_⟩
          simp [checkItems, hfind, if_neg hq, he]

/-- Looking a requested line up in the batch-fetched rows is the same as
looking it up in the whole `stocks` table. -/
theorem lookup_fetched (stocks : List StockRow) (items : List ValidItem)
    (it : ValidItem) (hmem : it ∈ items) :
    lookupStock (fetchedStocks stocks items) it.stockId = lookupStock stocks it.stockId := by
  induction stocks with
  | nil => rfl
  | cons s rest ih =>
    unfold fetchedStocks at ih ⊢
    unfold lookupStock at ih ⊢
    rw [List.filter_cons]
    cases hc : (items.map (fun i => i.stockId)).contains s.id with
    | true =>
      rw [if_pos rfl]
      simp only [List.find?_cons]
      cases hid : (s.id == it.stockId) with
      | true => rfl
      | false => exact ih
    | false =>
      rw [if_neg (by simp)]
      have hsid : (s.id == it.stockId) = false := by
        cases hsid : (s.id == it.stockId) with
        | false => rfl
        | true =>
          exfalso
          have hmm : s.id ∈ items.map (fun i => i.stockId) := by
            rw [eq_of_beq hsid]
            exact List.mem_map_of_mem (fun i => i.stockId) hmem
          have : (items.map (fun i => i.stockId)).contains s.id = true :=
            List.elem_iff.mpr hmm
          rw [hc] at this
          cases this
      rw [ih]
      show _ = List.find? _ (s :: rest)
      simp only [List.find?_cons]
      rw [hsid]

/-- A validation-loop error propagates out of the transaction body. -/
theorem txBody_error_of_checkItems (now : LocalDate) (db : DB) (v : ValidatedData)
    (inv : String) (e : String)
    (he : checkItems (fetchedStocks db.stocks v.items) v.items = .error e) :
    txBody now db v inv = .error e := by
  unfold txBody
  dsimp only
  rw [he]

/-- A pre-existing purchase with the candidate invoice number makes the
create step throw the unique-constraint error. -/
theorem txBody_collision (now : LocalDate) (db : DB) (v : ValidatedData)
    (inv : String) (updates : List StockUpdate)
    (hok : checkItems (fetchedStocks db.stocks v.items) v.items = .ok updates)
    (hcoll : db.purchases.any (fun p => p.invoiceNumber == inv) = true) :
    txBody now db v inv = .error "Unique constraint failed on the fields: (invoiceNumber)" := by
  unfold txBody
  simp only [hok]
  rw [if_pos hcoll]

/-- A committed transaction body decomposes into a successful validation
loop, an invoice number free of collisions, and the updated state. -/
theorem txBody_ok_elim (now : LocalDate) (db : DB) (v : ValidatedData)
    (inv : String) (db2 : DB)
    (h : txBody now db v inv = .ok db2) :
    ∃ updates, checkItems (fetchedStocks db.stocks v.items) v.items = .ok updates
      ∧ db.purchases.any (fun p => p.invoiceNumber == inv) = false
      ∧ db2 = { stocks := applyUpdates db.stocks updates
                purchases := db.purchases ++ [mkPurchaseRow now inv v]
                payments := db.payments } := by
  unfold txBody at h
  cases hc : checkItems (fetchedStocks db.stocks v.items) v.items with
  | error e =>
    simp only [hc] at h
    exact Except.noConfusion h
  | ok updates =>
    simp only [hc] at h
    cases hany : db.purchases.any (fun p => p.invoiceNumber == inv) with
    | true =>
      rw [if_pos hany] at h
      exact Except.noConfusion h
    | false =>
      rw [if_neg (by simp [hany])] at h
      cases h
      exact ⟨updates, rfl, rfl, rfl⟩

/-- Every update collected by a successful validation loop carries a
non-negative new quantity: each was computed as `quantity - requested`
right after the guard `quantity < requested` failed. -/
theorem checkItems_nonneg (stocks : List StockRow) (items : List ValidItem)
    (updates : List StockUpdate)
    (h : checkItems stocks items = .ok updates) :
    ∀ u ∈ updates, 0 ≤ u.newQuantity := by
  induction items generalizing updates with
  | nil =>
    unfold checkItems at h
    cases h
    intro u hu
    cases hu
  | cons a rest ih =>
    unfold checkItems at h
    cases hfind : lookupStock stocks a.stockId with
    | none =>
      simp only [hfind] at h
      exact Except.noConfusion h
    | some s =>
      simp only [hfind] at h
      by_cases hq : s.quantity < a.quantity
      · rw [if_pos hq] at h
        exact Except.noConfusion h
      · rw [if_neg hq] at h
        cases hrec : checkItems stocks rest with
        | error e =>
          simp only [hrec] at h
          exact Except.noConfusion h
        | ok updates2 =>
          simp only [hrec] at h
          cases h
          intro u hu
          rcases List.mem_cons.mp hu with rfl | hu2
          · exact Int.sub_nonneg.mpr (le_of_not_lt hq)
          · exact ih updates2 hrec u hu2

/-- Applying updates whose new quantities are non-negative to a table of
non-negative rows yields a table of non-negative rows. -/
theorem applyUpdates_nonneg (updates : List StockUpdate) (stocks : List StockRow)
    (hs : ∀ s ∈ stocks, 0 ≤ s.quantity)
    (hu : ∀ u ∈ updates, 0 ≤ u.newQuantity) :
    ∀ s ∈ applyUpdates stocks updates, 0 ≤ s.quantity := by
  induction updates generalizing stocks with
  | nil => exact hs
  | cons u rest ih =>
    apply ih
    · intro s hmem
      unfold applyUpdate at hmem
      obtain ⟨t, ht, hst⟩ := List.mem_map.mp hmem
      by_cases hidt : (t.id == u.id) = true
      · rw [if_pos hidt] at hst
        rw [← hst]
        exact hu u (List.mem_cons_self u rest)
      · rw [if_neg hidt] at hst
        rw [← hst]
        exact hs t ht
    · intro u2 h2
      exact hu u2 (List.mem_cons_of_mem u h2)

/-- A body with no issues passes every individual field check. -/
theorem schemaIssues_nil_parts (req : RawPurchaseRequest)
    (hc : schemaIssues req = []) :
    customerNameIssues req.customerName = []
    ∧ customerEmailIssues req.customerEmail = []
    ∧ requiredPositiveIssues req.subtotal "Subtotal must be positive" = []
    ∧ discountTypeIssues req.discountType = []
    ∧ optionalNonnegIssues req.discountValue = []
    ∧ optionalNonnegIssues req.discountAmount = []
    ∧ optionalNonnegIssues req.taxAmount = []
    ∧ requiredPositiveIssues req.totalAmount "Total amount must be positive" = []
    ∧ paymentMethodIssues req.paymentMethod = []
    ∧ itemsIssues req.items = [] := by
  unfold schemaIssues at hc
  simp only [List.append_eq_nil] at hc
  obtain ⟨⟨⟨⟨⟨⟨⟨⟨⟨h1, h2⟩, h3⟩, h4⟩, h5⟩, h6⟩, h7⟩, h8⟩, h9⟩, h10⟩ := hc
  exact ⟨h1, h2, h3, h4, h5, h6, h7, h8, h9, h10⟩

/-- A blank or absent customer name makes the schema raise an issue. -/
theorem schemaIssues_ne_nil_of_name (req : RawPurchaseRequest)
    (h : req.customerName = none ∨ req.customerName = some "") :
    schemaIssues req ≠ [] := by
  intro hc
  have h1 := (schemaIssues_nil_parts req hc).1
  rcases h with h0 | h0 <;> rw [h0] at h1 <;> simp [customerNameIssues] at h1

/-- A non-positive subtotal or total makes the schema raise an issue. -/
theorem schemaIssues_ne_nil_of_amounts (req : RawPurchaseRequest)
    (h : (∃ s, req.subtotal = some s ∧ s ≤ 0) ∨
         (∃ t, req.totalAmount = some t ∧ t ≤ 0)) :
    schemaIssues req ≠ [] := by
  intro hc
  rcases h with ⟨s, h0, hle⟩ | ⟨t, h0, hle⟩
  · have h1 := (schemaIssues_nil_parts req hc).2.2.1
    rw [h0] at h1
    simp [requiredPositiveIssues, if_pos hle] at h1
  · have h1 := (schemaIssues_nil_parts req hc).2.2.2.2.2.2.2.1
    rw [h0] at h1
    simp [requiredPositiveIssues, if_pos hle] at h1

/-! ### Claims -/

/-- C1: the claim states that duplicate `stockId` entries are summed before
the availability check and that a cart of two lines of 2 units each against
4 on hand ends with quantity 0. The code instead checks each line against
the quantity fetched once and pushes an absolute `newQuantity` per line, so
both updates write 4 − 2 = 2: the purchase succeeds but the stock row ends
at 2, not 0 (only one line's decrement survives). -/
theorem C1_duplicate_lines_not_merged :
    (POST day0 dbA reqDup).1.success = true
    ∧ (POST day0 dbA reqDup).1.status = 201
    ∧ (POST day0 dbA reqDup).2.stocks.map (fun s => s.quantity) = [2]
    ∧ (POST day0 dbA reqDup).2.stocks.map (fun s => s.quantity) ≠ [0]
    ∧ (POST day0 dbA reqDup).2.purchases.length = 1 := by
  decide

/-- C2: if any line of a parsed checkout request fails stock validation
(unknown stock id, or on-hand quantity below the requested quantity), the
whole operation aborts with no partial effects: stocks, purchases and
payments are all left exactly as they were. -/
theorem C2_checkout_atomicity (now : LocalDate) (db : DB) (req : RawPurchaseRequest)
    (v : ValidatedData) (hparse : createPurchaseSchema req = .ok v)
    (hbad : ∃ it ∈ v.items, lookupStock db.stocks it.stockId = none ∨
      ∃ s, lookupStock db.stocks it.stockId = some s ∧ s.quantity < it.quantity) :
    (POST now db req).1.success = false
    ∧ (POST now db req).2.stocks = db.stocks
    ∧ (POST now db req).2.purchases = db.purchases
    ∧ (POST now db req).2.payments = db.payments := by
  have hbad2 : ∃ it ∈ v.items,
      lookupStock (fetchedStocks db.stocks v.items) it.stockId = none ∨
      ∃ s, lookupStock (fetchedStocks db.stocks v.items) it.stockId = some s
        ∧ s.quantity < it.quantity := by
    obtain ⟨it, hmem, hb⟩ := hbad
    refine ⟨it, hmem, ?_⟩
    rw [lookup_fetched db.stocks v.items it hmem]
    exact hb
  obtain ⟨e, he⟩ := checkItems_error_of_exists _ _ hbad2
  have htx := txBody_error_of_checkItems now db v (generateInvoiceNumber now db) e he
  obtain ⟨hdb, hsucc⟩ := POST_db_unchanged_of_txError now db req v e hparse htx
  rw [hdb]
  exact ⟨hsucc, rfl, rfl, rfl⟩

/-- Witness for C2 at a concrete input: nine units requested against four
on hand; the call fails and the state is untouched. -/
theorem C2_checkout_atomicity_witness :
    (POST day0 dbA reqInsuf).1.success = false
    ∧ (POST day0 dbA reqInsuf).2.stocks = dbA.stocks
    ∧ (POST day0 dbA reqInsuf).2.purchases = dbA.purchases
    ∧ (POST day0 dbA reqInsuf).2.payments = dbA.payments :=
  C2_checkout_atomicity day0 dbA reqInsuf (extractValidated reqInsuf) rfl
    ⟨{ stockId := "stockA", quantity := 9, unitPrice := 100, totalPrice := 900 },
      List.mem_singleton.mpr rfl,
      Or.inr ⟨{ id := "stockA", itemName := "Silk Saree", quantity := 4 },
        rfl, by decide⟩⟩

/-- C3: the claim states that a unique-constraint violation on
`invoiceNumber` is retried (with the invoice number re-allocated inside a
fresh transaction) up to about 3 attempts before an `InvoiceAllocationFailed`
error surfaces. At a database where the generated number collides with an
existing row, the code answers with the raw unique-constraint message and
status 400 on the first and only attempt — not with
`InvoiceAllocationFailed` — and the invoice number was computed before the
transaction opened. -/
theorem C3_no_retry_counterexample :
    POST day0 dbColl reqOne =
      ({ success := false, status := 400,
         error := some "Unique constraint failed on the fields: (invoiceNumber)" }, dbColl)
    ∧ (POST day0 dbColl reqOne).1.error ≠ some "InvoiceAllocationFailed" := by
  decide

/-- C3 (amended): a unique-constraint violation on `invoiceNumber` is not
retried; the single attempt aborts, the raw constraint message is surfaced
with status 400, and the database is left unchanged. -/
theorem C3_unique_violation_not_retried (now : LocalDate) (db : DB)
    (req : RawPurchaseRequest) (v : ValidatedData) (updates : List StockUpdate)
    (hparse : createPurchaseSchema req = .ok v)
    (hok : checkItems (fetchedStocks db.stocks v.items) v.items = .ok updates)
    (hcoll : db.purchases.any
      (fun p => p.invoiceNumber == generateInvoiceNumber now db) = true) :
    POST now db req =
      ({ success := false, status := 400,
         error := some "Unique constraint failed on the fields: (invoiceNumber)" }, db) := by
  have htx := txBody_collision now db v (generateInvoiceNumber now db) updates hok hcoll
  rw [POST_of_txError now db req v _ hparse htx]
  rw [if_neg (by decide)]

/-- Witness for C3's amended statement at the concrete collision state. -/
theorem C3_unique_violation_not_retried_witness :
    POST day0 dbColl reqOne =
      ({ success := false, status := 400,
         error := some "Unique constraint failed on the fields: (invoiceNumber)" }, dbColl) :=
  C3_unique_violation_not_retried day0 dbColl reqOne (extractValidated reqOne)
    [{ id := "stockA", newQuantity := 3 }] rfl rfl (by decide)

/-- C4: the claim states that a split-payment checkout whose split amounts
sum to the total succeeds and creates one Payment row per entry. The
request built by the POS client for such a checkout carries
`paymentMethod: "split"`, which the server schema's
`z.enum(["cash", "card", "upi"])` rejects: the call fails with 400 before
any transaction, and no Payment row is ever created (the route never
touches the `payments` table at all). -/
theorem C4_split_payment_rejected :
    reqSplit.isSplitPayment = some true
    ∧ reqSplit.splitPayments = some [{ paymentMethod := "cash", amount := 400 },
                                     { paymentMethod := "card", amount := 600 }]
    ∧ ((reqSplit.splitPayments.getD []).map (fun p => p.amount)).sum
        = reqSplit.totalAmount.getD 0
    ∧ POST day0 dbA reqSplit =
        ({ success := false, status := 400, error := some "Validation failed" }, dbA)
    ∧ (POST day0 dbA reqSplit).2.payments = [] := by
  refine ⟨by decide, by decide, ?_, by decide, by decide⟩
  show (400 : Rat) + (600 + 0) = 1000
  norm_num

/-- C5: the invoice number is the string `INV-` followed by the local
calendar date as `YYYYMMDD` and a four-digit zero-padded sequence equal to
the count of purchases created on that calendar day plus one; with a zero
count the sequence part is `0001`, so it restarts each day. Stated for
calendar dates with four-digit years and day sequences that fit in four
digits (the code pads but never truncates). -/
theorem C5_invoice_number_format (today : LocalDate) (db : DB)
    (hy1 : 1000 ≤ today.year) (hy2 : today.year ≤ 9999)
    (hm : today.month ≤ 99) (hd : today.day ≤ 99)
    (hc : todayCount db today + 1 ≤ 9999) :
    generateInvoiceNumber today db =
      "INV-" ++ natToDec today.year
        ++ padLeft (natToDec today.month) 2 '0'
        ++ padLeft (natToDec today.day) 2 '0'
        ++ "-" ++ padLeft (natToDec (todayCount db today + 1)) 4 '0'
    ∧ (natToDec today.year ++ padLeft (natToDec today.month) 2 '0'
        ++ padLeft (natToDec today.day) 2 '0').length = 8
    ∧ (padLeft (natToDec (todayCount db today + 1)) 4 '0').length = 4
    ∧ (todayCount db today = 0 →
        padLeft (natToDec (todayCount db today + 1)) 4 '0' = "0001") := by
  have h1000 : (10 : Nat) ^ 3 = 1000 := by norm_num
  have h10000 : (10 : Nat) ^ 4 = 10000 := by norm_num
  have h100 : (10 : Nat) ^ 2 = 100 := by norm_num
  refine ⟨rfl, ?_, ?_, ?_⟩
  · rw [String.length_append, String.length_append]
    have hy : (natToDec today.year).length = 4 := by
      have := natToDec_length_eq today.year 3 (by omega) (by omega)
      omega
    have hmth : (padLeft (natToDec today.month) 2 '0').length = 2 := by
      rw [padLeft_length]
      have := natToDec_length_le today.month 2 (by norm_num) (by omega)
      omega
    have hday : (padLeft (natToDec today.day) 2 '0').length = 2 := by
      rw [padLeft_length]
      have := natToDec_length_le today.day 2 (by norm_num) (by omega)
      omega
    omega
  · rw [padLeft_length]
    have := natToDec_length_le (todayCount db today + 1) 4 (by norm_num) (by omega)
    omega
  · intro h0
    rw [h0]
    decide

/-- Witness for C5 at the concrete date `day0` and the empty purchase
table: one purchase count of zero, sequence `0001`. -/
theorem C5_invoice_number_format_witness :
    generateInvoiceNumber day0 dbA =
      "INV-" ++ natToDec day0.year
        ++ padLeft (natToDec day0.month) 2 '0'
        ++ padLeft (natToDec day0.day) 2 '0'
        ++ "-" ++ padLeft (natToDec (todayCount dbA day0 + 1)) 4 '0'
    ∧ (natToDec day0.year ++ padLeft (natToDec day0.month) 2 '0'
        ++ padLeft (natToDec day0.day) 2 '0').length = 8
    ∧ (padLeft (natToDec (todayCount dbA day0 + 1)) 4 '0').length = 4
    ∧ (todayCount dbA day0 = 0 →
        padLeft (natToDec (todayCount dbA day0 + 1)) 4 '0' = "0001") :=
  C5_invoice_number_format day0 dbA (by decide) (by decide) (by decide) (by decide)
    (by decide)

/-- C6: the claim states that the checkout only persists purchases whose
`totalAmount` equals `subtotal - discountAmount + taxAmount` and whose
`subtotal` equals the sum of the items' `totalPrice`, within 0.01. A
request claiming subtotal 100 and total 999 over a single item of price 5
passes validation (all fields individually positive) and is committed
unchanged: both equations are off by far more than 0.01. -/
theorem C6_totals_not_enforced_counterexample :
    (POST day0 dbA reqBadTotals).1.status = 201
    ∧ (POST day0 dbA reqBadTotals).2.purchases.map
        (fun p => (p.subtotal, p.discountAmount, p.taxAmount, p.totalAmount,
          p.items.map (fun it => it.totalPrice))) = [(100, 0, 0, 999, [5])]
    ∧ ¬(|(999 : Rat) - (100 - 0 + 0)| ≤ 1 / 100)
    ∧ ¬(|(100 : Rat) - List.sum [(5 : Rat)]| ≤ 1 / 100) := by
  refine ⟨by decide, by decide, ?_, ?_⟩
  · rw [abs_of_pos (by norm_num)]
    norm_num
  · rw [List.sum_singleton, abs_of_pos (by norm_num)]
    norm_num

/-- C6 (amended): a committed purchase stores `subtotal`, `discountAmount`,
`taxAmount`, `totalAmount` and the item prices exactly as the client
supplied them; the route checks each field's sign but enforces no equation
between them. -/
theorem C6_amounts_stored_verbatim (now : LocalDate) (db : DB)
    (req : RawPurchaseRequest) (v : ValidatedData) (r : ApiResponse) (db2 : DB)
    (hparse : createPurchaseSchema req = .ok v)
    (hpost : POST now db req = (r, db2))
    (hsucc : r.success = true) :
    ∃ p, db2.purchases = db.purchases ++ [p]
      ∧ p.subtotal = v.subtotal
      ∧ p.discountAmount = v.discountAmount
      ∧ p.taxAmount = v.taxAmount
      ∧ p.totalAmount = v.totalAmount
      ∧ p.items.map (fun it => it.totalPrice) = v.items.map (fun it => it.totalPrice) := by
  cases ht : txBody now db v (generateInvoiceNumber now db) with
  | error e =>
    rw [POST_of_txError now db req v e hparse ht] at hpost
    by_cases hinc : (strIncludes e "Transaction" || strIncludes e "transaction") = true
    · rw [if_pos hinc] at hpost
      cases hpost
      simp at hsucc
    · rw [if_neg hinc] at hpost
      cases hpost
      simp at hsucc
  | ok dbOk =>
    rw [POST_of_txOk now db req v dbOk hparse ht] at hpost
    cases hpost
    obtain ⟨updates, hck, hany, hdb2⟩ := txBody_ok_elim now db v _ _ ht
    refine ⟨mkPurchaseRow now (generateInvoiceNumber now db) v,
      ?_, rfl, rfl, rfl, rfl, ?_⟩
    · rw [hdb2]
    · unfold mkPurchaseRow
      simp [List.map_map]

/-- Witness for C6's amended statement at a concrete successful checkout. -/
theorem C6_amounts_stored_verbatim_witness :
    ∃ p, (POST day0 dbA baseReq).2.purchases = dbA.purchases ++ [p]
      ∧ p.subtotal = (extractValidated baseReq).subtotal
      ∧ p.discountAmount = (extractValidated baseReq).discountAmount
      ∧ p.taxAmount = (extractValidated baseReq).taxAmount
      ∧ p.totalAmount = (extractValidated baseReq).totalAmount
      ∧ p.items.map (fun it => it.totalPrice)
          = (extractValidated baseReq).items.map (fun it => it.totalPrice) :=
  C6_amounts_stored_verbatim day0 dbA baseReq (extractValidated baseReq)
    (POST day0 dbA baseReq).1 (POST day0 dbA baseReq).2 rfl rfl (by decide)

/-- C7: whatever the request, a checkout call on a database whose stock
quantities are all non-negative leaves all stock quantities non-negative:
every decrement is written only after the guard `quantity < requested`
failed for that line, so every written quantity is `quantity - requested ≥ 0`. -/
theorem C7_stock_quantities_nonneg (now : LocalDate) (db : DB) (req : RawPurchaseRequest)
    (h : ∀ s ∈ db.stocks, 0 ≤ s.quantity) :
    ∀ s ∈ (POST now db req).2.stocks, 0 ≤ s.quantity := by
  cases hp : createPurchaseSchema req with
  | error e =>
    have hne : schemaIssues req ≠ [] := by
      intro h0
      unfold createPurchaseSchema at hp
      rw [if_pos h0] at hp
      exact Except.noConfusion hp
    rw [POST_of_issues now db req hne]
    exact h
  | ok v =>
    cases ht : txBody now db v (generateInvoiceNumber now db) with
    | error e =>
      obtain ⟨hdb, _⟩ := POST_db_unchanged_of_txError now db req v e hp ht
      rw [hdb]
      exact h
    | ok db2 =>
      rw [POST_of_txOk now db req v db2 hp ht]
      obtain ⟨updates, hck, hany, hdb2⟩ := txBody_ok_elim now db v _ _ ht
      rw [hdb2]
      exact applyUpdates_nonneg updates db.stocks h (checkItems_nonneg _ _ _ hck)

/-- Witness for C7 at a concrete successful checkout: the one stock row of
the state after the call (stockA decremented to 2) is non-negative. -/
theorem C7_stock_quantities_nonneg_witness :
    0 ≤ ({ id := "stockA", itemName := "Silk Saree", quantity := 2 } : StockRow).quantity :=
  C7_stock_quantities_nonneg day0 dbA baseReq
    (by intro s hs; rw [List.mem_singleton.mp hs]; decide)
    { id := "stockA", itemName := "Silk Saree", quantity := 2 }
    (List.mem_singleton.mpr rfl)

/-- C8: the claim states 404 for an unknown stock item and 409 for
insufficient stock. The code's `catch` block maps every thrown `Error`
whose message lacks the substring "transaction" to status 400: the
unknown-stock and insufficient-stock errors both surface as 400. -/
theorem C8_status_codes_counterexample :
    (POST day0 dbA reqGhost).1.error = some "Stock item with ID ghost not found"
    ∧ (POST day0 dbA reqGhost).1.status = 400
    ∧ (POST day0 dbA reqGhost).1.status ≠ 404
    ∧ (POST day0 dbA reqInsuf).1.error
        = some "Insufficient stock for Silk Saree. Available: 4, Required: 9"
    ∧ (POST day0 dbA reqInsuf).1.status = 400
    ∧ (POST day0 dbA reqInsuf).1.status ≠ 409 := by
  decide

/-- C8 (amended): request-validation failures get 400; every error thrown
inside the transaction (unknown stock item, insufficient stock, invoice
collision) also surfaces as 400 with the thrown message — never 404 or
409 — unless its message contains "Transaction" or "transaction", in which
case it surfaces as 503. -/
theorem C8_status_codes_amended :
    (∀ now db req, schemaIssues req ≠ [] → (POST now db req).1.status = 400)
    ∧ (∀ now db req v e, createPurchaseSchema req = .ok v →
        txBody now db v (generateInvoiceNumber now db) = .error e →
        strIncludes e "Transaction" = false → strIncludes e "transaction" = false →
        (POST now db req).1.status = 400 ∧ (POST now db req).1.error = some e)
    ∧ (∀ now db req v e, createPurchaseSchema req = .ok v →
        txBody now db v (generateInvoiceNumber now db) = .error e →
        (strIncludes e "Transaction" = true ∨ strIncludes e "transaction" = true) →
        (POST now db req).1.status = 503) := by
  refine ⟨?_, ?_, ?_⟩
  · intro now db req hne
    rw [POST_of_issues now db req hne]
  · intro now db req v e hp ht h1 h2
    rw [POST_of_txError now db req v e hp ht, if_neg (by simp [h1, h2])]
    exact ⟨rfl, rfl⟩
  · intro now db req v e hp ht hor
    rw [POST_of_txError now db req v e hp ht,
      if_pos (by rcases hor with h | h <;> simp [h])]

/-- Witness for C8's amended statement: a validation failure and an
unknown-stock failure, both answered with 400. -/
theorem C8_status_codes_amended_witness :
    (POST day0 dbA reqZero).1.status = 400
    ∧ (POST day0 dbA reqGhost).1.status = 400 :=
  ⟨C8_status_codes_amended.1 day0 dbA reqZero (by decide),
   (C8_status_codes_amended.2.1 day0 dbA reqGhost (extractValidated reqGhost)
      "Stock item with ID ghost not found" rfl rfl (by decide) (by decide)).1⟩

/-- C9: the claim states that a blank customer name still succeeds with the
default `Walk-in Customer`. The server schema's
`customerName: z.string().min(1)` rejects the empty string, so the call
fails with 400 and creates nothing (the default lives in the POS client and
in the database column default, not in this operation). -/
theorem C9_blank_name_counterexample :
    reqBlank.customerName = some ""
    ∧ POST day0 dbA reqBlank =
        ({ success := false, status := 400, error := some "Validation failed" }, dbA)
    ∧ (POST day0 dbA reqBlank).2.purchases = [] := by
  decide

/-- C9 (amended): a checkout request whose customer name is absent or empty
is rejected with a 400 validation failure and the database is untouched. -/
theorem C9_blank_name_rejected (now : LocalDate) (db : DB) (req : RawPurchaseRequest)
    (h : req.customerName = none ∨ req.customerName = some "") :
    POST now db req =
      ({ success := false, status := 400, error := some "Validation failed" }, db) :=
  POST_of_issues now db req (schemaIssues_ne_nil_of_name req h)

/-- Witness for C9's amended statement at the concrete empty-name request. -/
theorem C9_blank_name_rejected_witness :
    POST day0 dbA reqBlank =
      ({ success := false, status := 400, error := some "Validation failed" }, dbA) :=
  C9_blank_name_rejected day0 dbA reqBlank (Or.inr rfl)

/-- C10: a request whose subtotal or total amount is zero or negative fails
the schema's `positive()` checks: the call is answered with a 400
validation failure and nothing is created, so a fully discounted,
zero-total sale cannot be recorded. -/
theorem C10_nonpositive_amounts_rejected (now : LocalDate) (db : DB)
    (req : RawPurchaseRequest)
    (h : (∃ s, req.subtotal = some s ∧ s ≤ 0) ∨
         (∃ t, req.totalAmount = some t ∧ t ≤ 0)) :
    (POST now db req).1.status = 400
    ∧ (POST now db req).1.success = false
    ∧ (POST now db req).2 = db := by
  rw [POST_of_issues now db req (schemaIssues_ne_nil_of_amounts req h)]
  exact ⟨rfl, rfl, rfl⟩

/-- Witness for C10 at the concrete zero-total request. -/
theorem C10_nonpositive_amounts_rejected_witness :
    (POST day0 dbA reqZero).1.status = 400
    ∧ (POST day0 dbA reqZero).1.success = false
    ∧ (POST day0 dbA reqZero).2 = dbA :=
  C10_nonpositive_amounts_rejected day0 dbA reqZero
    (Or.inl ⟨0, rfl, le_refl 0⟩)

end Billing
